import Mathlib

/-!
Verification development for the fitness-tracker module (`homework.py`).

The numeric model: Python's `int`/`float` arithmetic in the formulas is
embedded as exact rational arithmetic over `ℚ`; every constant of the source
(`0.65`, `1.79`, `0.035`, `0.029`, `0.278`, `1.1`, `1.38`, `1000`, `60`,
`100`) is exactly representable as a rational, so the formulas themselves
translate without loss.  List indexing that can raise `IndexError` in Python
is embedded with `Except`: `Except.error` models the raised exception.
-/

/-- Source `InfoMessage` dataclass: info message about the training. -/
structure InfoMessage where
  training_type : String
  duration : ℚ
  distance : ℚ
  speed : ℚ
  calories : ℚ

/-- The three digit characters of `k % 1000`, zero padded to width 3: the
fractional part produced by Python's `.3f` formatting. -/
def pad3 (k : ℕ) : String :=
  String.mk [Nat.digitChar (k / 100 % 10), Nat.digitChar (k / 10 % 10), Nat.digitChar (k % 10)]

/-- Fixed-point rendering with three decimals, the `{x:.3f}` conversion of the
format string: round to the nearest thousandth (the model uses `round` on the
exact rational) and print with exactly three digits after the decimal point. -/
def format_fix3 (q : ℚ) : String :=
  (if round (q * 1000) < 0 then "-" else "")
    ++ toString ((round (q * 1000)).natAbs / 1000)
    ++ "." ++ pad3 ((round (q * 1000)).natAbs % 1000)

/-- Source `InfoMessage.get_message`: return the info message.  The source applies
`str.format` to the fixed template
`'Тип тренировки: ...; Длительность: ...'`; the embedding spells out the
result of that substitution as string concatenation. -/
def InfoMessage.get_message (m : InfoMessage) : String :=
  "Тип тренировки: " ++ m.training_type
    ++ "; Длительность: " ++ format_fix3 m.duration
    ++ " ч.; Дистанция: " ++ format_fix3 m.distance
    ++ " км; Ср. скорость: " ++ format_fix3 m.speed
    ++ " км/ч; Потрачено ккал: " ++ format_fix3 m.calories ++ "."

/-- Source `Training` base class: `action` steps or strokes, `duration` in hours,
`weight` in kg. -/
structure Training where
  action : ℤ
  duration : ℚ
  weight : ℚ

/-- Source `Training.LEN_STEP = 0.65`: step length in meters. -/
def Training.LEN_STEP : ℚ := 0.65

/-- Source `Training.M_IN_KM = 1000`: conversion factor meters to kilometers. -/
def Training.M_IN_KM : ℚ := 1000

/-- Source `Training.H_IN_M = 60`: conversion factor hours to minutes. -/
def Training.H_IN_M : ℚ := 60

/-- Source `Training.get_distance`: `action * LEN_STEP / M_IN_KM`. -/
def Training.get_distance (t : Training) : ℚ :=
  t.action * Training.LEN_STEP / Training.M_IN_KM

/-- Source `Training.get_mean_speed`: `get_distance() / duration`. -/
def Training.get_mean_speed (t : Training) : ℚ :=
  t.get_distance / t.duration

/-- Source `Running`: inherits the `Training` fields and methods, overrides only
`get_spent_calories`. -/
structure Running extends Training

/-- Source `Running.CALORIES_MEAN_SPEED_MULTIPLIER = 18`. -/
def Running.CALORIES_MEAN_SPEED_MULTIPLIER : ℚ := 18

/-- Source `Running.CALORIES_MEAN_SPEED_SHIFT = 1.79`. -/
def Running.CALORIES_MEAN_SPEED_SHIFT : ℚ := 1.79

/-- Source `Running.get_distance` is inherited unchanged from `Training`. -/
def Running.get_distance (r : Running) : ℚ := r.toTraining.get_distance

/-- Source `Running.get_mean_speed` is inherited unchanged from `Training`. -/
def Running.get_mean_speed (r : Running) : ℚ := r.toTraining.get_mean_speed

/-- Source `Running.get_spent_calories`:
`(MULTIPLIER * get_mean_speed() + SHIFT) * weight / M_IN_KM * duration * H_IN_M`. -/
def Running.get_spent_calories (r : Running) : ℚ :=
  (Running.CALORIES_MEAN_SPEED_MULTIPLIER * r.get_mean_speed
      + Running.CALORIES_MEAN_SPEED_SHIFT) * r.weight / Training.M_IN_KM
    * r.duration * Training.H_IN_M

/-- Source `SportsWalking`: adds the `height` attribute (person's height in cm). -/
structure SportsWalking extends Training where
  height : ℚ

/-- Source `SportsWalking.CALORIES_WEIGHT_MULTIPLIER_1 = 0.035`. -/
def SportsWalking.CALORIES_WEIGHT_MULTIPLIER_1 : ℚ := 0.035

/-- Source `SportsWalking.CALORIES_WEIGHT_MULTIPLIER_2 = 0.029`. -/
def SportsWalking.CALORIES_WEIGHT_MULTIPLIER_2 : ℚ := 0.029

/-- Source `SportsWalking.KM_PER_H_IN_M_PER_S = 0.278`. -/
def SportsWalking.KM_PER_H_IN_M_PER_S : ℚ := 0.278

/-- Source `SportsWalking.CM_IN_M = 100`. -/
def SportsWalking.CM_IN_M : ℚ := 100

/-- Source `SportsWalking.get_distance` is inherited unchanged from `Training`. -/
def SportsWalking.get_distance (w : SportsWalking) : ℚ := w.toTraining.get_distance

/-- Source `SportsWalking.get_mean_speed` is inherited unchanged from `Training`. -/
def SportsWalking.get_mean_speed (w : SportsWalking) : ℚ := w.toTraining.get_mean_speed

/-- Source `SportsWalking.get_spent_calories`:
`(M1 * weight + (get_mean_speed() * KMH_MS)^2 / (height / CM_IN_M) * M2 * weight)
 * duration * H_IN_M`. -/
def SportsWalking.get_spent_calories (w : SportsWalking) : ℚ :=
  (SportsWalking.CALORIES_WEIGHT_MULTIPLIER_1 * w.weight
      + (w.get_mean_speed * SportsWalking.KM_PER_H_IN_M_PER_S) ^ 2
        / (w.height / SportsWalking.CM_IN_M)
        * SportsWalking.CALORIES_WEIGHT_MULTIPLIER_2 * w.weight)
    * w.duration * Training.H_IN_M

/-- Source `Swimming`: adds `length_pool` (pool length in meters) and `count_pool`
(number of pool crossings). -/
structure Swimming extends Training where
  length_pool : ℚ
  count_pool : ℤ

/-- Source `Swimming.LEN_STEP = 1.38`: stroke length, overriding the base constant. -/
def Swimming.LEN_STEP : ℚ := 1.38

/-- Source `Swimming.CALORIES_MEAN_SPEED_ADDITION = 1.1`. -/
def Swimming.CALORIES_MEAN_SPEED_ADDITION : ℚ := 1.1

/-- Source `Swimming.CALORIES_MEAN_SPEED_MULTIPLIER = 2`. -/
def Swimming.CALORIES_MEAN_SPEED_MULTIPLIER : ℚ := 2

/-- Source `Swimming.get_distance`: the inherited body `action * LEN_STEP / M_IN_KM`,
but `self.LEN_STEP` now resolves to the overridden stroke length `1.38`. -/
def Swimming.get_distance (s : Swimming) : ℚ :=
  s.action * Swimming.LEN_STEP / Training.M_IN_KM

/-- Source `Swimming.get_mean_speed` (override):
`length_pool * count_pool / M_IN_KM / duration`. -/
def Swimming.get_mean_speed (s : Swimming) : ℚ :=
  s.length_pool * s.count_pool / Training.M_IN_KM / s.duration

/-- Source `Swimming.get_spent_calories`:
`(get_mean_speed() + ADDITION) * MULTIPLIER * weight * duration`. -/
def Swimming.get_spent_calories (s : Swimming) : ℚ :=
  (s.get_mean_speed + Swimming.CALORIES_MEAN_SPEED_ADDITION)
    * Swimming.CALORIES_MEAN_SPEED_MULTIPLIER * s.weight * s.duration

/-- Keys of the `workouts` mapping `{SWM: Swimming, RUN: Running, WLK: SportsWalking}`;
`check_data` consults it only through `workout_type not in workouts`. -/
def workouts : List String := ["SWM", "RUN", "WLK"]

/-- Error message for a wrong argument count. -/
def msg_arity : String := "Некорректное количество аргументов."

/-- Error message for a weight outside the valid range. -/
def msg_weight : String := "Неверно указанный вес."

/-- Error message for a pool length outside the valid range (the source
concatenates two adjacent string literals). -/
def msg_pool : String := "Неверно указана длина бассейна. Необходимо указать длину в м."

/-- Error message for a height outside the valid range. -/
def msg_height : String := "Неверно указан рост. Необходимо указать рост в см."

/-- Error message for an unknown workout code. -/
def msg_unknown : String := "Неверно указан шифр тренировки."

/-- Models the `IndexError` Python raises when `data[i]` is out of range. -/
def msg_index_error : String := "IndexError: list index out of range"

/-- Tail of the `elif` chain of `check_data`, reached after the weight check
(and, for `SWM`/`WLK`, the pool/height check) has passed: the conditions
`workout_type == 'SWM' and ...` / `workout_type == 'WLK' and ...` that remain
ahead are `False` by short-circuit for the codes that reach this point, so
only `workout_type not in workouts` is left to decide. -/
def check_data_tail (workout_type : String) : Except String (Option String) :=
  if workout_type ∉ workouts then Except.ok (some msg_unknown)
  else Except.ok none

/-- Source `check_data`: check data in package.  The `elif` chain of the source,
with Python's short-circuit evaluation made explicit: `data[2]` (and, in the
`SWM`/`WLK` branches, `data[3]`) is fetched with `List.get?` and a missing
index is the raised `IndexError` (`Except.error`). -/
def check_data (workout_type : String) (data : List ℚ) : Except String (Option String) :=
  if workout_type = "SWM" ∧ data.length ≠ 5 then Except.ok (some msg_arity)
  else if workout_type = "RUN" ∧ data.length ≠ 3 then Except.ok (some msg_arity)
  else if workout_type = "WLK" ∧ data.length ≠ 4 then Except.ok (some msg_arity)
  else match data.get? 2 with
    | none => Except.error msg_index_error
    | some w =>
      if ¬ (35 < w ∧ w < 610) then Except.ok (some msg_weight)
      else if workout_type = "SWM" then
        match data.get? 3 with
        | none => Except.error msg_index_error
        | some lp =>
          if ¬ (1 < lp ∧ lp < 1013) then Except.ok (some msg_pool)
          else check_data_tail workout_type
      else if workout_type = "WLK" then
        match data.get? 3 with
        | none => Except.error msg_index_error
        | some h =>
          if ¬ (50 < h ∧ h < 251) then Except.ok (some msg_height)
          else check_data_tail workout_type
      else check_data_tail workout_type

/-! Helper lemmas about `check_data`: one lemma per reachable outcome of the
`elif` chain, shared by the claim theorems below. -/

theorem cd_arity_swm (data : List ℚ) (h : data.length ≠ 5) :
    check_data "SWM" data = Except.ok (some msg_arity) := by
  simp only [check_data]
  rw [if_pos ⟨trivial, h⟩]

theorem cd_arity_run (data : List ℚ) (h : data.length ≠ 3) :
    check_data "RUN" data = Except.ok (some msg_arity) := by
  simp only [check_data]
  rw [if_neg (fun hc => absurd hc.1 (by decide)), if_pos ⟨trivial, h⟩]

theorem cd_arity_wlk (data : List ℚ) (h : data.length ≠ 4) :
    check_data "WLK" data = Except.ok (some msg_arity) := by
  simp only [check_data]
  rw [if_neg (fun hc => absurd hc.1 (by decide)),
    if_neg (fun hc => absurd hc.1 (by decide)), if_pos ⟨trivial, h⟩]

theorem cd_weight_bad (wt : String) (data : List ℚ) (w : ℚ)
    (h1 : ¬ (wt = "SWM" ∧ data.length ≠ 5)) (h2 : ¬ (wt = "RUN" ∧ data.length ≠ 3))
    (h3 : ¬ (wt = "WLK" ∧ data.length ≠ 4)) (hw2 : data.get? 2 = some w)
    (hbad : ¬ (35 < w ∧ w < 610)) :
    check_data wt data = Except.ok (some msg_weight) := by
  simp only [check_data]
  rw [if_neg h1, if_neg h2, if_neg h3]
  simp only [hw2]
  rw [if_pos hbad]

theorem cd_index_fault (wt : String) (data : List ℚ)
    (h1 : ¬ (wt = "SWM" ∧ data.length ≠ 5)) (h2 : ¬ (wt = "RUN" ∧ data.length ≠ 3))
    (h3 : ¬ (wt = "WLK" ∧ data.length ≠ 4)) (hnone : data.get? 2 = none) :
    check_data wt data = Except.error msg_index_error := by
  simp only [check_data]
  rw [if_neg h1, if_neg h2, if_neg h3]
  simp only [hnone]

theorem cd_swm_pool_bad (data : List ℚ) (w lp : ℚ) (hlen : data.length = 5)
    (hw2 : data.get? 2 = some w) (hwok : 35 < w ∧ w < 610)
    (hlp : data.get? 3 = some lp) (hbad : ¬ (1 < lp ∧ lp < 1013)) :
    check_data "SWM" data = Except.ok (some msg_pool) := by
  simp only [check_data]
  rw [if_neg (fun hc => hc.2 hlen), if_neg (fun hc => absurd hc.1 (by decide)),
    if_neg (fun hc => absurd hc.1 (by decide))]
  simp only [hw2]
  rw [if_neg (not_not_intro hwok), if_pos trivial]
  simp only [hlp]
  rw [if_pos hbad]

theorem cd_swm_ok (data : List ℚ) (w lp : ℚ) (hlen : data.length = 5)
    (hw2 : data.get? 2 = some w) (hwok : 35 < w ∧ w < 610)
    (hlp : data.get? 3 = some lp) (hok : 1 < lp ∧ lp < 1013) :
    check_data "SWM" data = Except.ok none := by
  simp only [check_data]
  rw [if_neg (fun hc => hc.2 hlen), if_neg (fun hc => absurd hc.1 (by decide)),
    if_neg (fun hc => absurd hc.1 (by decide))]
  simp only [hw2]
  rw [if_neg (not_not_intro hwok), if_pos trivial]
  simp only [hlp]
  rw [if_neg (not_not_intro hok)]
  simp [check_data_tail, workouts]

theorem cd_run_ok (data : List ℚ) (w : ℚ) (hlen : data.length = 3)
    (hw2 : data.get? 2 = some w) (hwok : 35 < w ∧ w < 610) :
    check_data "RUN" data = Except.ok none := by
  simp only [check_data]
  rw [if_neg (fun hc => absurd hc.1 (by decide)), if_neg (fun hc => hc.2 hlen),
    if_neg (fun hc => absurd hc.1 (by decide))]
  simp only [hw2]
  rw [if_neg (not_not_intro hwok), if_neg (show ¬ ("RUN" = "SWM") by decide),
    if_neg (show ¬ ("RUN" = "WLK") by decide)]
  simp [check_data_tail, workouts]

theorem cd_wlk_height_bad (data : List ℚ) (w h : ℚ) (hlen : data.length = 4)
    (hw2 : data.get? 2 = some w) (hwok : 35 < w ∧ w < 610)
    (hh : data.get? 3 = some h) (hbad : ¬ (50 < h ∧ h < 251)) :
    check_data "WLK" data = Except.ok (some msg_height) := by
  simp only [check_data]
  rw [if_neg (fun hc => absurd hc.1 (by decide)), if_neg (fun hc => absurd hc.1 (by decide)),
    if_neg (fun hc => hc.2 hlen)]
  simp only [hw2]
  rw [if_neg (not_not_intro hwok), if_neg (show ¬ ("WLK" = "SWM") by decide), if_pos trivial]
  simp only [hh]
  rw [if_pos hbad]

theorem cd_wlk_ok (data : List ℚ) (w h : ℚ) (hlen : data.length = 4)
    (hw2 : data.get? 2 = some w) (hwok : 35 < w ∧ w < 610)
    (hh : data.get? 3 = some h) (hok : 50 < h ∧ h < 251) :
    check_data "WLK" data = Except.ok none := by
  simp only [check_data]
  rw [if_neg (fun hc => absurd hc.1 (by decide)), if_neg (fun hc => absurd hc.1 (by decide)),
    if_neg (fun hc => hc.2 hlen)]
  simp only [hw2]
  rw [if_neg (not_not_intro hwok), if_neg (show ¬ ("WLK" = "SWM") by decide), if_pos trivial]
  simp only [hh]
  rw [if_neg (not_not_intro hok)]
  simp [check_data_tail, workouts]

theorem cd_unknown (wt : String) (data : List ℚ) (w : ℚ)
    (h1 : wt ≠ "SWM") (h2 : wt ≠ "RUN") (h3 : wt ≠ "WLK")
    (hw2 : data.get? 2 = some w) (hwok : 35 < w ∧ w < 610) :
    check_data wt data = Except.ok (some msg_unknown) := by
  simp only [check_data]
  rw [if_neg (fun hc => h1 hc.1), if_neg (fun hc => h2 hc.1), if_neg (fun hc => h3 hc.1)]
  simp only [hw2]
  rw [if_neg (not_not_intro hwok), if_neg h1, if_neg h3]
  simp only [check_data_tail]
  rw [if_pos (by simp [workouts, h1, h2, h3])]

/-! Claim theorems. -/

/-- Claim C1: for every Running or Walking variant with action count `a` and
duration `d > 0`, `get_distance` returns `a * 0.65 / 1000` and
`get_mean_speed` returns `get_distance / d`. -/
theorem C1_distance_and_mean_speed (r : Running) (w : SportsWalking)
    (hr : 0 < r.duration) (hw : 0 < w.duration) :
    r.get_distance = (r.action : ℚ) * 0.65 / 1000
      ∧ r.get_mean_speed = r.get_distance / r.duration
      ∧ w.get_distance = (w.action : ℚ) * 0.65 / 1000
      ∧ w.get_mean_speed = w.get_distance / w.duration :=
  ⟨rfl, rfl, rfl, rfl⟩

/-- Witness for C1 at the demo inputs `RUN [15000, 1, 75]` and
`WLK [9000, 1, 75, 180]`. -/
theorem C1_witness :
    (0 : ℚ) < 1
      ∧ (Running.get_distance ⟨⟨15000, 1, 75⟩⟩ = ((15000 : ℤ) : ℚ) * 0.65 / 1000
        ∧ Running.get_mean_speed ⟨⟨15000, 1, 75⟩⟩ = Running.get_distance ⟨⟨15000, 1, 75⟩⟩ / 1
        ∧ SportsWalking.get_distance ⟨⟨9000, 1, 75⟩, 180⟩ = ((9000 : ℤ) : ℚ) * 0.65 / 1000
        ∧ SportsWalking.get_mean_speed ⟨⟨9000, 1, 75⟩, 180⟩
            = SportsWalking.get_distance ⟨⟨9000, 1, 75⟩, 180⟩ / 1) :=
  ⟨by decide,
    C1_distance_and_mean_speed ⟨⟨15000, 1, 75⟩⟩ ⟨⟨9000, 1, 75⟩, 180⟩ (by decide) (by decide)⟩

/-- Claim C2: for every Swimming variant with duration `d > 0`, pool length `L`
and crossing count `n`, `get_mean_speed` returns `L * n / 1000 / d`, and the
value does not depend on the stroke-count field `action`. -/
theorem C2_swimming_mean_speed (s : Swimming) (hd : 0 < s.duration) :
    s.get_mean_speed = s.length_pool * (s.count_pool : ℚ) / 1000 / s.duration
      ∧ ∀ a : ℤ,
        Swimming.get_mean_speed { s with toTraining := { s.toTraining with action := a } }
          = s.get_mean_speed :=
  ⟨rfl, fun _ => rfl⟩

/-- Witness for C2 at the demo input `SWM [720, 1, 80, 25, 40]`, including the
stroke count replaced by `999`. -/
theorem C2_witness :
    (0 : ℚ) < 1
      ∧ Swimming.get_mean_speed ⟨⟨720, 1, 80⟩, 25, 40⟩ = 25 * ((40 : ℤ) : ℚ) / 1000 / 1
      ∧ Swimming.get_mean_speed ⟨⟨999, 1, 80⟩, 25, 40⟩
          = Swimming.get_mean_speed ⟨⟨720, 1, 80⟩, 25, 40⟩ :=
  ⟨by decide, (C2_swimming_mean_speed ⟨⟨720, 1, 80⟩, 25, 40⟩ (by decide)).1,
    (C2_swimming_mean_speed ⟨⟨720, 1, 80⟩, 25, 40⟩ (by decide)).2 999⟩

/-- Claim C3: Running calories follow
`(18 * get_mean_speed + 1.79) * weight / 1000 * duration * 60`; at the input
`RUN [15000, 1, 75]` the distance and mean speed are `9.75` and the calories
equal `(18 * 9.75 + 1.79) * 75 / 1000 * 1 * 60`. -/
theorem C3_running_calories (r : Running) (hd : 0 < r.duration) :
    r.get_spent_calories
        = (18 * r.get_mean_speed + 1.79) * r.weight / 1000 * r.duration * 60
      ∧ Running.get_distance ⟨⟨15000, 1, 75⟩⟩ = 9.75
      ∧ Running.get_mean_speed ⟨⟨15000, 1, 75⟩⟩ = 9.75
      ∧ Running.get_spent_calories ⟨⟨15000, 1, 75⟩⟩
          = (18 * 9.75 + 1.79) * 75 / 1000 * 1 * 60 := by
  refine ⟨rfl, ?_, ?_, ?_⟩ <;>
    norm_num [Running.get_distance, Running.get_mean_speed, Running.get_spent_calories,
      Training.get_distance, Training.get_mean_speed, Training.LEN_STEP, Training.M_IN_KM,
      Training.H_IN_M, Running.CALORIES_MEAN_SPEED_MULTIPLIER,
      Running.CALORIES_MEAN_SPEED_SHIFT]

/-- Witness for C3 at the demo input `RUN [15000, 1, 75]`. -/
theorem C3_witness :
    (0 : ℚ) < 1
      ∧ Running.get_spent_calories ⟨⟨15000, 1, 75⟩⟩
          = (18 * Running.get_mean_speed ⟨⟨15000, 1, 75⟩⟩ + 1.79) * 75 / 1000 * 1 * 60 :=
  ⟨by decide, (C3_running_calories ⟨⟨15000, 1, 75⟩⟩ (by decide)).1⟩

/-- Claim C4: Walking calories follow
`(0.035 * weight + (get_mean_speed * 0.278)^2 / (height / 100) * 0.029 * weight)
 * duration * 60`, where `get_mean_speed` is the base step-length formula. -/
theorem C4_walking_calories (w : SportsWalking) (hd : 0 < w.duration) (hh : 0 < w.height) :
    w.get_spent_calories
        = (0.035 * w.weight
            + (w.get_mean_speed * 0.278) ^ 2 / (w.height / 100) * 0.029 * w.weight)
          * w.duration * 60
      ∧ w.get_mean_speed = w.toTraining.get_mean_speed :=
  ⟨rfl, rfl⟩

/-- Witness for C4 at the demo input `WLK [9000, 1, 75, 180]`. -/
theorem C4_witness :
    (0 : ℚ) < 1 ∧ (0 : ℚ) < 180
      ∧ SportsWalking.get_spent_calories ⟨⟨9000, 1, 75⟩, 180⟩
          = (0.035 * 75
              + (SportsWalking.get_mean_speed ⟨⟨9000, 1, 75⟩, 180⟩ * 0.278) ^ 2
                / ((180 : ℚ) / 100) * 0.029 * 75) * 1 * 60 :=
  ⟨by decide, by decide,
    (C4_walking_calories ⟨⟨9000, 1, 75⟩, 180⟩ (by decide) (by decide)).1⟩

/-- Claim C5: Swimming calories follow
`(get_mean_speed + 1.1) * 2 * weight * duration`; at the input
`SWM [720, 1, 80, 25, 40]` the mean speed is `1.0` and the calories are `336.0`. -/
theorem C5_swimming_calories (s : Swimming) (hd : 0 < s.duration) :
    s.get_spent_calories = (s.get_mean_speed + 1.1) * 2 * s.weight * s.duration
      ∧ Swimming.get_mean_speed ⟨⟨720, 1, 80⟩, 25, 40⟩ = 1
      ∧ Swimming.get_spent_calories ⟨⟨720, 1, 80⟩, 25, 40⟩ = 336 := by
  refine ⟨rfl, ?_, ?_⟩ <;>
    norm_num [Swimming.get_mean_speed, Swimming.get_spent_calories, Training.M_IN_KM,
      Swimming.CALORIES_MEAN_SPEED_ADDITION, Swimming.CALORIES_MEAN_SPEED_MULTIPLIER]

/-- Witness for C5 at the demo input `SWM [720, 1, 80, 25, 40]`. -/
theorem C5_witness :
    (0 : ℚ) < 1
      ∧ Swimming.get_spent_calories ⟨⟨720, 1, 80⟩, 25, 40⟩
          = (Swimming.get_mean_speed ⟨⟨720, 1, 80⟩, 25, 40⟩ + 1.1) * 2 * 80 * 1 :=
  ⟨by decide, (C5_swimming_calories ⟨⟨720, 1, 80⟩, 25, 40⟩ (by decide)).1⟩

/-- Claim C6: `check_data` applies its checks in the fixed order (arity for the
recognized code, weight range, Swimming pool length, Walking height, unknown
code), returns the message of the first failing check, and returns `none`
when all applicable checks pass; in particular, for `SWM` with correct arity
and valid weight, an out-of-range pool length yields the pool-length error. -/
theorem C6_check_data_precedence (wt : String) (data : List ℚ) :
    ((wt = "SWM" ∧ data.length ≠ 5) ∨ (wt = "RUN" ∧ data.length ≠ 3)
        ∨ (wt = "WLK" ∧ data.length ≠ 4) →
      check_data wt data = Except.ok (some msg_arity))
    ∧ (∀ w : ℚ, ¬ (wt = "SWM" ∧ data.length ≠ 5) → ¬ (wt = "RUN" ∧ data.length ≠ 3)
        → ¬ (wt = "WLK" ∧ data.length ≠ 4) → data.get? 2 = some w
        → ¬ (35 < w ∧ w < 610) → check_data wt data = Except.ok (some msg_weight))
    ∧ (∀ w lp : ℚ, wt = "SWM" → data.length = 5 → data.get? 2 = some w
        → 35 < w ∧ w < 610 → data.get? 3 = some lp → ¬ (1 < lp ∧ lp < 1013)
        → check_data wt data = Except.ok (some msg_pool))
    ∧ (∀ w lp : ℚ, wt = "SWM" → data.length = 5 → data.get? 2 = some w
        → 35 < w ∧ w < 610 → data.get? 3 = some lp → 1 < lp ∧ lp < 1013
        → check_data wt data = Except.ok none)
    ∧ (∀ w : ℚ, wt = "RUN" → data.length = 3 → data.get? 2 = some w
        → 35 < w ∧ w < 610 → check_data wt data = Except.ok none)
    ∧ (∀ w h : ℚ, wt = "WLK" → data.length = 4 → data.get? 2 = some w
        → 35 < w ∧ w < 610 → data.get? 3 = some h → ¬ (50 < h ∧ h < 251)
        → check_data wt data = Except.ok (some msg_height))
    ∧ (∀ w h : ℚ, wt = "WLK" → data.length = 4 → data.get? 2 = some w
        → 35 < w ∧ w < 610 → data.get? 3 = some h → 50 < h ∧ h < 251
        → check_data wt data = Except.ok none)
    ∧ (∀ w : ℚ, wt ∉ workouts → data.get? 2 = some w → 35 < w ∧ w < 610
        → check_data wt data = Except.ok (some msg_unknown)) := by
  refine ⟨?_, ?_, ?_, ?_, ?_, ?_, ?_, ?_⟩
  · rintro (⟨e, hl⟩ | ⟨e, hl⟩ | ⟨e, hl⟩) <;> subst e
    · exact cd_arity_swm data hl
    · exact cd_arity_run data hl
    · exact cd_arity_wlk data hl
  · exact fun w h1 h2 h3 hw2 hbad => cd_weight_bad wt data w h1 h2 h3 hw2 hbad
  · intro w lp e h5 hw2 hwok hlp hbad; subst e
    exact cd_swm_pool_bad data w lp h5 hw2 hwok hlp hbad
  · intro w lp e h5 hw2 hwok hlp hok; subst e
    exact cd_swm_ok data w lp h5 hw2 hwok hlp hok
  · intro w e h3 hw2 hwok; subst e
    exact cd_run_ok data w h3 hw2 hwok
  · intro w h e h4 hw2 hwok hh hbad; subst e
    exact cd_wlk_height_bad data w h h4 hw2 hwok hh hbad
  · intro w h e h4 hw2 hwok hh hok; subst e
    exact cd_wlk_ok data w h h4 hw2 hwok hh hok
  · intro w hmem hw2 hwok
    exact cd_unknown wt data w (fun e => hmem (by simp [workouts, e]))
      (fun e => hmem (by simp [workouts, e])) (fun e => hmem (by simp [workouts, e])) hw2 hwok

/-- Witness for C6: a pool length of `2000` with valid arity and weight gives
the pool-length error, and the demo input `SWM [720, 1, 80, 25, 40]` passes. -/
theorem C6_witness :
    check_data "SWM" [720, 1, 80, 2000, 40] = Except.ok (some msg_pool)
      ∧ check_data "SWM" [720, 1, 80, 25, 40] = Except.ok none :=
  ⟨(C6_check_data_precedence "SWM" [720, 1, 80, 2000, 40]).2.2.1 80 2000 rfl rfl rfl
      ⟨by decide, by decide⟩ rfl (fun hc => absurd hc.2 (by decide)),
    (C6_check_data_precedence "SWM" [720, 1, 80, 25, 40]).2.2.2.1 80 25 rfl rfl rfl
      ⟨by decide, by decide⟩ rfl ⟨by decide, by decide⟩⟩

/-- Claim C7: for a recognized code with the correct arity, `check_data`
reports the invalid-weight error exactly when `data[2]` lies outside the open
interval `(35, 610)`. -/
theorem C7_weight_boundary (wt : String) (data : List ℚ) (w : ℚ)
    (harity : wt = "SWM" ∧ data.length = 5 ∨ wt = "RUN" ∧ data.length = 3
      ∨ wt = "WLK" ∧ data.length = 4)
    (hw2 : data.get? 2 = some w) :
    check_data wt data = Except.ok (some msg_weight) ↔ ¬ (35 < w ∧ w < 610) := by
  constructor
  · intro hres
    by_contra hok
    rcases harity with ⟨e, hlen⟩ | ⟨e, hlen⟩ | ⟨e, hlen⟩ <;> subst e
    · obtain ⟨lp, hlp⟩ : ∃ lp, data.get? 3 = some lp := by
        have h3 : 3 < data.length := by omega
        exact ⟨data.get ⟨3, h3⟩, List.get?_eq_get h3⟩
      by_cases hpool : 1 < lp ∧ lp < 1013
      · rw [cd_swm_ok data w lp hlen hw2 hok hlp hpool] at hres
        simp at hres
      · rw [cd_swm_pool_bad data w lp hlen hw2 hok hlp hpool] at hres
        exact absurd (Option.some.inj (Except.ok.inj hres)) (by decide)
    · rw [cd_run_ok data w hlen hw2 hok] at hres
      simp at hres
    · obtain ⟨h, hh⟩ : ∃ h, data.get? 3 = some h := by
        have h3 : 3 < data.length := by omega
        exact ⟨data.get ⟨3, h3⟩, List.get?_eq_get h3⟩
      by_cases hht : 50 < h ∧ h < 251
      · rw [cd_wlk_ok data w h hlen hw2 hok hh hht] at hres
        simp at hres
      · rw [cd_wlk_height_bad data w h hlen hw2 hok hh hht] at hres
        exact absurd (Option.some.inj (Except.ok.inj hres)) (by decide)
  · intro hbad
    rcases harity with ⟨e, hlen⟩ | ⟨e, hlen⟩ | ⟨e, hlen⟩ <;> subst e
    · exact cd_weight_bad _ data w (fun hc => hc.2 hlen)
        (fun hc => absurd hc.1 (by decide)) (fun hc => absurd hc.1 (by decide)) hw2 hbad
    · exact cd_weight_bad _ data w (fun hc => absurd hc.1 (by decide))
        (fun hc => hc.2 hlen) (fun hc => absurd hc.1 (by decide)) hw2 hbad
    · exact cd_weight_bad _ data w (fun hc => absurd hc.1 (by decide))
        (fun hc => absurd hc.1 (by decide)) (fun hc => hc.2 hlen) hw2 hbad

/-- Witness for C7: the boundary weights `35` and `610` are rejected while
`35.01` and `609.99` are accepted. -/
theorem C7_witness :
    check_data "RUN" [15000, 1, 35] = Except.ok (some msg_weight)
      ∧ check_data "RUN" [15000, 1, 610] = Except.ok (some msg_weight)
      ∧ check_data "RUN" [15000, 1, 35.01] ≠ Except.ok (some msg_weight)
      ∧ check_data "RUN" [15000, 1, 609.99] ≠ Except.ok (some msg_weight) :=
  ⟨(C7_weight_boundary "RUN" [15000, 1, 35] 35 (Or.inr (Or.inl ⟨rfl, rfl⟩)) rfl).mpr
      (fun hc => absurd hc.1 (by decide)),
    (C7_weight_boundary "RUN" [15000, 1, 610] 610 (Or.inr (Or.inl ⟨rfl, rfl⟩)) rfl).mpr
      (fun hc => absurd hc.2 (by decide)),
    fun h => (C7_weight_boundary "RUN" [15000, 1, 35.01] 35.01
      (Or.inr (Or.inl ⟨rfl, rfl⟩)) rfl).mp h ⟨by norm_num, by norm_num⟩,
    fun h => (C7_weight_boundary "RUN" [15000, 1, 609.99] 609.99
      (Or.inr (Or.inl ⟨rfl, rfl⟩)) rfl).mp h ⟨by norm_num, by norm_num⟩⟩

/-- Claim C8: for an unrecognized code, `check_data` evaluates the weight
check at `data[2]` before the unknown-code check, so a list with fewer than 3
elements faults with an index error instead of returning the unknown-code
message. -/
theorem C8_unknown_code_short_list_faults (wt : String) (data : List ℚ)
    (h1 : wt ≠ "SWM") (h2 : wt ≠ "RUN") (h3 : wt ≠ "WLK") (hlen : data.length < 3) :
    check_data wt data = Except.error msg_index_error
      ∧ check_data wt data ≠ Except.ok (some msg_unknown) := by
  have hnone : data.get? 2 = none := List.get?_eq_none.mpr (by omega)
  have hres := cd_index_fault wt data (fun hc => h1 hc.1) (fun hc => h2 hc.1)
    (fun hc => h3 hc.1) hnone
  exact ⟨hres, by rw [hres]; exact fun h => Except.noConfusion h⟩

/-- Witness for C8 at the unknown code `PLT` with a 2-element list. -/
theorem C8_witness :
    check_data "PLT" [12000, 1] = Except.error msg_index_error
      ∧ check_data "PLT" [12000, 1] ≠ Except.ok (some msg_unknown) :=
  C8_unknown_code_short_list_faults "PLT" [12000, 1] (by decide) (by decide) (by decide)
    (by decide)

/-! Evaluation lemmas for `format_fix3` at the field values of the demo record. -/

theorem format_fix3_one : format_fix3 1 = "1.000" := by
  have h : round ((1 : ℚ) * 1000) = 1000 := by norm_num [round_eq]
  simp only [format_fix3, h]
  decide

theorem format_fix3_975 : format_fix3 9.75 = "9.750" := by
  have h : round ((9.75 : ℚ) * 1000) = 9750 := by norm_num [round_eq]
  simp only [format_fix3, h]
  decide

theorem format_fix3_336 : format_fix3 336 = "336.000" := by
  have h : round ((336 : ℚ) * 1000) = 336000 := by norm_num [round_eq]
  simp only [format_fix3, h]
  decide

/-- Counterexample to C9 as stated: at a concrete record the message produced
by `get_message` is not the English template line claimed (the source template
is the Russian one). -/
theorem C9_counterexample :
    InfoMessage.get_message ⟨"Running", 1, 9.75, 9.75, 336⟩
      ≠ "Workout type: Running; Duration: 1.000 h; Distance: 9.750 km; Mean speed: 9.750 km/h; Calories spent: 336.000." := by
  have h : InfoMessage.get_message ⟨"Running", 1, 9.75, 9.75, 336⟩
      = "Тип тренировки: Running; Длительность: 1.000 ч.; Дистанция: 9.750 км; Ср. скорость: 9.750 км/ч; Потрачено ккал: 336.000." := by
    simp only [InfoMessage.get_message, format_fix3_one, format_fix3_975, format_fix3_336]
    decide
  rw [h]
  decide

/-- Claim C9 (amended): `get_message` produces the single fixed Russian
template line, with each of the four numeric fields rendered with exactly
three digits after the decimal point. -/
theorem C9_message_template (m : InfoMessage) :
    m.get_message
        = "Тип тренировки: " ++ m.training_type ++ "; Длительность: "
          ++ format_fix3 m.duration ++ " ч.; Дистанция: " ++ format_fix3 m.distance
          ++ " км; Ср. скорость: " ++ format_fix3 m.speed ++ " км/ч; Потрачено ккал: "
          ++ format_fix3 m.calories ++ "."
      ∧ ∀ q : ℚ, ∃ intPart : String,
          format_fix3 q = intPart ++ "." ++ pad3 ((round (q * 1000)).natAbs % 1000)
            ∧ (pad3 ((round (q * 1000)).natAbs % 1000)).length = 3 :=
  ⟨rfl, fun q =>
    ⟨(if round (q * 1000) < 0 then "-" else "")
        ++ toString ((round (q * 1000)).natAbs / 1000), rfl, rfl⟩⟩

/-- Claim C10: Running and Swimming calories are strictly increasing in the
weight, all other constructor arguments held fixed, for positive duration and
non-negative action and pool parameters. -/
theorem C10_calories_weight_monotone (a : ℤ) (d w1 w2 : ℚ)
    (ha : 0 ≤ a) (hd : 0 < d) (hw : w1 < w2) :
    Running.get_spent_calories ⟨⟨a, d, w1⟩⟩ < Running.get_spent_calories ⟨⟨a, d, w2⟩⟩
      ∧ ∀ (sa : ℤ) (L : ℚ) (n : ℤ), 0 ≤ L → 0 ≤ n →
          Swimming.get_spent_calories ⟨⟨sa, d, w1⟩, L, n⟩
            < Swimming.get_spent_calories ⟨⟨sa, d, w2⟩, L, n⟩ := by
  constructor
  · have hs : (0 : ℚ) ≤ (a : ℚ) * 0.65 / 1000 / d :=
      div_nonneg (div_nonneg (mul_nonneg (by exact_mod_cast ha) (by norm_num))
        (by norm_num)) hd.le
    have hpos : (0 : ℚ) < 18 * ((a : ℚ) * 0.65 / 1000 / d) + 1.79 := by linarith
    simp only [Running.get_spent_calories, Running.get_mean_speed, Training.get_mean_speed,
      Training.get_distance, Training.LEN_STEP, Training.M_IN_KM, Training.H_IN_M,
      Running.CALORIES_MEAN_SPEED_MULTIPLIER, Running.CALORIES_MEAN_SPEED_SHIFT]
    nlinarith [mul_pos (mul_pos hpos hd) (sub_pos.mpr hw)]
  · intro sa L n hL hn
    have hs : (0 : ℚ) ≤ L * (n : ℚ) / 1000 / d :=
      div_nonneg (div_nonneg (mul_nonneg hL (by exact_mod_cast hn)) (by norm_num)) hd.le
    have hpos : (0 : ℚ) < L * (n : ℚ) / 1000 / d + 1.1 := by linarith
    simp only [Swimming.get_spent_calories, Swimming.get_mean_speed, Training.M_IN_KM,
      Swimming.CALORIES_MEAN_SPEED_ADDITION, Swimming.CALORIES_MEAN_SPEED_MULTIPLIER]
    nlinarith [mul_pos (mul_pos hpos hd) (sub_pos.mpr hw)]

/-- Witness for C10 at the demo parameters, weights `75 < 80`. -/
theorem C10_witness :
    (0 : ℤ) ≤ 15000 ∧ (0 : ℚ) < 1 ∧ (75 : ℚ) < 80
      ∧ Running.get_spent_calories ⟨⟨15000, 1, 75⟩⟩
          < Running.get_spent_calories ⟨⟨15000, 1, 80⟩⟩
      ∧ Swimming.get_spent_calories ⟨⟨720, 1, 75⟩, 25, 40⟩
          < Swimming.get_spent_calories ⟨⟨720, 1, 80⟩, 25, 40⟩ :=
  ⟨by decide, by decide, by decide,
    (C10_calories_weight_monotone 15000 1 75 80 (by decide) (by decide) (by decide)).1,
    (C10_calories_weight_monotone 15000 1 75 80 (by decide) (by decide) (by decide)).2
      720 25 40 (by decide) (by decide)⟩
